import Mathlib

/-!
Verification of the real-time presence and chat layer of Project-Tactics
(`Server/socketio_server.py`), embedded shallowly: the two module-level
dictionaries `connected_players` and `char_to_sid` become association
lists with Python-dict update semantics, event emission becomes an
explicit list of outbound events, and Python truthiness / string helpers
are modelled explicitly.  Floating-point world coordinates are modelled
as exact rationals; the source's `sqrt(dx^2+dy^2) <= range_px`
comparison is embedded as the equivalent squared comparison, and the
bridge to the real square root is proved (`inRangeB_iff_sqrt`).
-/

namespace ProjectTactics

abbrev Sid := String

abbrev CharId := String

/-- One value of the `connected_players` dict: the per-connection session
record created by `handle_connect` and filled in by `handle_join_world`. -/
structure Player where
  account_id : String
  is_admin : Bool
  character_id : Option CharId
  name : Option String
  rank : Option String
  allegiance : Option String
  x : ℚ
  y : ℚ
deriving DecidableEq

/-- The fields of `models.Account` that the socket layer reads. -/
structure Account where
  id : String
  username : String
  is_admin : Bool
  is_banned : Bool
deriving DecidableEq

/-- The fields of `models.Character` that the socket layer reads.
`rp_rank` and `allegiance` are nullable columns, hence `Option`. -/
structure Character where
  id : CharId
  account_id : String
  name : String
  rp_rank : Option String
  allegiance : Option String
deriving DecidableEq

/-- A decoded JWT payload; `verify_token` reads only the `account_id` claim. -/
structure JwtPayload where
  account_id : Option String
deriving DecidableEq

/-- The `auth` dict passed to the `connect` event. -/
structure AuthData where
  token : Option String
deriving DecidableEq

/-- Payload of an inbound `chat` event (`data.get` fields). -/
structure ChatData where
  msgType : Option String
  text : Option String
  target : Option String
  color : Option String
deriving DecidableEq

/-- Payload of an inbound `join_world` event. -/
structure JoinData where
  character_id : Option CharId
  x : Option ℚ
  y : Option ℚ
deriving DecidableEq

/-- Payload of an outbound `chat` event as built in `handle_chat`. -/
structure ChatPayload where
  sender : Option String
  sender_id : Option CharId
  text : String
  msgType : String
  color : Option String
  target : Option String
deriving DecidableEq

/-- Payload of an outbound `player_joined` event. -/
structure JoinInfo where
  id : Option CharId
  name : Option String
  rank : Option String
  allegiance : Option String
  x : ℚ
  y : ℚ
deriving DecidableEq

/-- Outbound effects of one handler invocation, in emission order.
`forceClose` models the `disconnect()` call in `handle_connect`. -/
inductive Event where
  | chat : ChatPayload → Sid → Event
  | chatError : String → Sid → Event
  | playerJoined : JoinInfo → Sid → Event
  | playerLeft : CharId → Sid → Event
  | forceClose : Sid → Event
deriving DecidableEq

/-- The module-level mutable state: `connected_players` (sid → player)
and `char_to_sid` (character id → sid), as insertion-ordered maps. -/
structure ServerState where
  connected_players : List (Sid × Player)
  char_to_sid : List (CharId × Sid)
deriving DecidableEq

/-- Dict lookup (`d.get(k)`): first entry with the given key. -/
def lookupD {β : Type} : List (String × β) → String → Option β
  | [], _ => none
  | (k0, v) :: t, k => if k0 = k then some v else lookupD t k

/-- Dict write (`d[k] = v`): replace in place if the key is present,
append otherwise (Python dicts preserve insertion order). -/
def insertD {β : Type} : List (String × β) → String → β → List (String × β)
  | [], k, v => [(k, v)]
  | (k0, v0) :: t, k, v => if k0 = k then (k, v) :: t else (k0, v0) :: insertD t k v

/-- Dict removal (`d.pop(k, None)`). -/
def eraseD {β : Type} (l : List (String × β)) (k : String) : List (String × β) :=
  l.filter (fun kv => kv.1 != k)

/-- Python truthiness of a nullable string: `None` and `""` are falsy. -/
def optFalsy (v : Option String) : Bool :=
  match v with
  | none => true
  | some s => s = ""

/-- Python `a or d` for a nullable string `a`: the default replaces both
`None` and the empty string. -/
def pyOr (v : Option String) (d : String) : String :=
  match v with
  | none => d
  | some s => if s = "" then d else s

/-- Python `str.lower()` on an ASCII character. -/
def lowerChar (c : Char) : Char :=
  if 65 ≤ c.toNat ∧ c.toNat ≤ 90 then Char.ofNat (c.toNat + 32) else c

/-- Python `str.lower()`. -/
def pyLower (s : String) : String := String.mk (s.data.map lowerChar)

/-- Drop leading whitespace characters. -/
def dropWs : List Char → List Char
  | [] => []
  | c :: t => if c.isWhitespace then dropWs t else c :: t

/-- Python `str.strip()`: drop leading and trailing whitespace. -/
def pyStrip (s : String) : String :=
  String.mk ((dropWs ((dropWs s.data).reverse)).reverse)

/-- `TILE_PX = 32`. -/
def TILE_PX : ℚ := 32

/-- The `CHAT_RANGES` dict: radius in pixels per proximity channel,
`none` for channels not in the dict. -/
def CHAT_RANGES (t : String) : Option ℚ :=
  if t = "say" then some (8 * TILE_PX)
  else if t = "whisper" then some (2 * TILE_PX)
  else if t = "yell" then some (12 * TILE_PX)
  else if t = "emote" then some (10 * TILE_PX)
  else if t = "story" then some (10 * TILE_PX)
  else none

/-- `FACTION_SEND_RANKS = {"Banneret", "Justicar"}`. -/
def FACTION_SEND_RANKS : List String := [("Banneret"), ("Justicar")]

/-- `player["rank"] in FACTION_SEND_RANKS` (a `None` rank is never a member). -/
def rankMem (r : Option String) : Bool :=
  match r with
  | some s => FACTION_SEND_RANKS.contains s
  | none => false

/-- The source compares `distance(x1,y1,x2,y2) <= range_px` with
`distance = sqrt((x2-x1)**2 + (y2-y1)**2)`; over exact arithmetic this is
embedded as the squared comparison, proved equivalent for a nonnegative
radius in `inRangeB_iff_sqrt`. -/
def inRangeB (x1 y1 x2 y2 r : ℚ) : Bool :=
  decide ((x2 - x1) * (x2 - x1) + (y2 - y1) * (y2 - y1) ≤ r * r)

/-- `players_in_range(sender_sid, range_px)`: sids of entries other than
the sender whose position is within the radius.  The source iterates all
of `connected_players` and does NOT require the entry to be bound. -/
def players_in_range (st : ServerState) (sender_sid : Sid) (range_px : ℚ) : List Sid :=
  match lookupD st.connected_players sender_sid with
  | none => []
  | some sender =>
      (st.connected_players.filter
        (fun kv => (kv.1 != sender_sid) && inRangeB sender.x sender.y kv.2.x kv.2.y range_px)).map
        Prod.fst

/-- `all_other_sids(exclude_sid)`. -/
def all_other_sids (st : ServerState) (exclude_sid : Sid) : List Sid :=
  (st.connected_players.map Prod.fst).filter (fun s => s != exclude_sid)

/-- `verify_token`: decode the JWT, read the `account_id` claim (falsy →
reject) and fetch the account.  `decode` abstracts `jwt.decode` (returns
`none` on an expired/invalid token), `accounts` abstracts
`Account.query.get`.  NOTE: no ban check is performed here. -/
def verify_token (decode : String → Option JwtPayload) (accounts : String → Option Account)
    (token : String) : Option Account :=
  match decode token with
  | none => none
  | some payload =>
      match payload.account_id with
      | none => none
      | some aid => if aid = "" then none else accounts aid

/-- `handle_connect`: extract the bearer token from the auth dict; a
missing/falsy token or failed verification force-closes the connection;
otherwise a fresh unbound session is stored at `request.sid`. -/
def handle_connect (decode : String → Option JwtPayload) (accounts : String → Option Account)
    (st : ServerState) (sid : Sid) (auth : Option AuthData) : ServerState × List Event :=
  let token : Option String :=
    match auth with
    | some a => a.token
    | none => none
  match token with
  | none => (st, [Event.forceClose sid])
  | some t =>
      if t = "" then (st, [Event.forceClose sid])
      else
        match verify_token decode accounts t with
        | none => (st, [Event.forceClose sid])
        | some account =>
            ({ st with
                connected_players := insertD st.connected_players sid
                  { account_id := account.id, is_admin := account.is_admin,
                    character_id := none, name := none, rank := none,
                    allegiance := none, x := 0, y := 0 } }, [])

/-- `handle_disconnect`: pop the session; if it had a (truthy) bound
character, drop the reverse-index entry and emit `player_left` to every
remaining sid. -/
def handle_disconnect (st : ServerState) (sid : Sid) : ServerState × List Event :=
  match lookupD st.connected_players sid with
  | none => (st, [])
  | some player =>
      let remaining := eraseD st.connected_players sid
      match player.character_id with
      | none => ({ connected_players := remaining, char_to_sid := st.char_to_sid }, [])
      | some cid =>
          if cid = "" then
            ({ connected_players := remaining, char_to_sid := st.char_to_sid }, [])
          else
            ({ connected_players := remaining, char_to_sid := eraseD st.char_to_sid cid },
              (remaining.map Prod.fst).map (fun s => Event.playerLeft cid s))

/-- `handle_join_world`: validate the session, the `character_id` field,
the character record and its ownership; then bind the character into the
session (defaulting rank/allegiance through Python `or`), update
`char_to_sid`, send the roster of other bound sessions to the joiner and
broadcast the joiner to the other bound sessions. -/
def handle_join_world (characters : CharId → Option Character) (st : ServerState) (sid : Sid)
    (data : JoinData) : ServerState × List Event :=
  match lookupD st.connected_players sid with
  | none => (st, [])
  | some player =>
      match data.character_id with
      | none => (st, [])
      | some cid =>
          if cid = "" then (st, [])
          else
            match characters cid with
            | none => (st, [])
            | some character =>
                if character.account_id ≠ player.account_id then (st, [])
                else
                  let p2 : Player :=
                    { player with
                      character_id := some character.id,
                      name := some character.name,
                      rank := some (pyOr character.rp_rank ("Aspirant")),
                      allegiance := some (pyOr character.allegiance ("None")),
                      x := data.x.getD 0,
                      y := data.y.getD 0 }
                  let players2 := insertD st.connected_players sid p2
                  let st2 : ServerState :=
                    { connected_players := players2,
                      char_to_sid := insertD st.char_to_sid character.id sid }
                  let roster := (players2.filter
                      (fun kv => (kv.1 != sid) && !(optFalsy kv.2.character_id))).map
                      (fun kv => Event.playerJoined
                        { id := kv.2.character_id, name := kv.2.name, rank := kv.2.rank,
                          allegiance := kv.2.allegiance, x := kv.2.x, y := kv.2.y } sid)
                  let join_data : JoinInfo :=
                    { id := some character.id, name := some character.name,
                      rank := p2.rank, allegiance := p2.allegiance, x := p2.x, y := p2.y }
                  let broadcast := (players2.filter
                      (fun kv => (kv.1 != sid) && !(optFalsy kv.2.character_id))).map
                      (fun kv => Event.playerJoined join_data kv.1)
                  (st2, roster ++ broadcast)

/-- `handle_chat`: look up and require a bound sender; normalise the
channel name and trim the text; silently drop empty/oversized text; then
route by channel exactly as the source does (proximity, `ooc`, `faction`,
`admin_whisper`, `announce`, unknown → drop).  The handler never mutates
the registry. -/
def handle_chat (st : ServerState) (sid : Sid) (data : ChatData) : ServerState × List Event :=
  match lookupD st.connected_players sid with
  | none => (st, [])
  | some player =>
      if optFalsy player.character_id then (st, [])
      else
        let msg_type := pyLower (data.msgType.getD ("say"))
        let text := pyStrip (data.text.getD (""))
        if text = "" ∨ text.length > 2000 then (st, [])
        else
          let chat_payload : ChatPayload :=
            { sender := player.name, sender_id := player.character_id, text := text,
              msgType := msg_type,
              color := if optFalsy data.color then none else data.color,
              target := none }
          match CHAT_RANGES msg_type with
          | some range_px =>
              (st, (players_in_range st sid range_px).map (fun t => Event.chat chat_payload t))
          | none =>
              if msg_type = "ooc" then
                (st, (st.connected_players.filter
                    (fun kv => (kv.1 != sid) && !(optFalsy kv.2.character_id))).map
                    (fun kv => Event.chat chat_payload kv.1))
              else if msg_type = "faction" then
                if !(rankMem player.rank) then
                  (st, [Event.chatError ("Only Banneret and above can use Faction chat.") sid])
                else
                  if optFalsy player.allegiance || (player.allegiance == some ("None")) then
                    (st, [Event.chatError ("You have no faction allegiance.") sid])
                  else
                    (st, (st.connected_players.filter
                        (fun kv => (kv.1 != sid) && !(optFalsy kv.2.character_id) &&
                          (kv.2.allegiance == player.allegiance))).map
                        (fun kv => Event.chat chat_payload kv.1))
              else if msg_type = "admin_whisper" then
                if !player.is_admin then (st, [])
                else
                  match data.target with
                  | none => (st, [])
                  | some tgt =>
                      if tgt = "" then (st, [])
                      else
                        match st.connected_players.find? (fun kv => kv.2.name == some tgt) with
                        | some kv =>
                            (st, [Event.chat { chat_payload with target := some tgt } kv.1])
                        | none =>
                            (st, [Event.chatError
                              (("Player \x27") ++ tgt ++ ("\x27 not online.")) sid])
              else if msg_type = "announce" then
                if !player.is_admin then (st, [])
                else
                  (st, (st.connected_players.filter
                      (fun kv => (kv.1 != sid) && !(optFalsy kv.2.character_id))).map
                      (fun kv => Event.chat chat_payload kv.1))
              else (st, [])

/-- The strict-mirror property the spec demands of the reverse index:
`char_to_sid` maps `c` to `s` exactly when the session stored for `s` is
bound to `c`. -/
def Mirror (st : ServerState) : Prop :=
  ∀ c s, lookupD st.char_to_sid c = some s ↔
    ∃ p, lookupD st.connected_players s = some p ∧ p.character_id = some c

/-- No live session is bound to the empty-string character id (such a
binding would be treated as unbound by the disconnect cleanup). -/
def NoEmptyBind (st : ServerState) : Prop :=
  ∀ s p, lookupD st.connected_players s = some p → p.character_id ≠ some ""

/-- The session for `sid`, if any, has no bound character. -/
def sessionUnbound (st : ServerState) (sid : Sid) : Prop :=
  ∀ p, lookupD st.connected_players sid = some p → p.character_id = none

/-- The character that a `join_world` event would bind, if every check in
`handle_join_world` (session present, truthy `character_id`, record
found, ownership) passes; `none` when the handler early-returns. -/
def joinChar (characters : CharId → Option Character) (st : ServerState) (sid : Sid)
    (data : JoinData) : Option Character :=
  match lookupD st.connected_players sid with
  | none => none
  | some player =>
      match data.character_id with
      | none => none
      | some cid =>
          if cid = "" then none
          else
            match characters cid with
            | none => none
            | some character =>
                if character.account_id ≠ player.account_id then none else some character

/-- The character a `join_world` event would bind is not already in the
reverse index (no double login of one character). -/
def charFree (characters : CharId → Option Character) (st : ServerState) (sid : Sid)
    (data : JoinData) : Prop :=
  ∀ ch, joinChar characters st sid data = some ch → lookupD st.char_to_sid ch.id = none

/-- States reachable from the empty registry by connect, join-world and
disconnect events, restricted as the transport and the spec's session
invariants demand: a connect event carries a fresh sid, a join-world
event only fires for a session without a bound character, never binds a
character some live session is already bound to, and the character
table is well-formed (a record fetched by primary key carries that key
as its id). -/
inductive ReachableR : ServerState → Prop where
  | init : ReachableR { connected_players := [], char_to_sid := [] }
  | conn : ∀ st decode accounts sid auth, ReachableR st →
      lookupD st.connected_players sid = none →
      ReachableR (handle_connect decode accounts st sid auth).1
  | join : ∀ st characters sid data, ReachableR st →
      sessionUnbound st sid →
      charFree characters st sid data →
      (∀ c2 ch, characters c2 = some ch → ch.id = c2) →
      ReachableR (handle_join_world characters st sid data).1
  | disc : ∀ st sid, ReachableR st →
      ReachableR (handle_disconnect st sid).1

/-! Concrete scenario used by counterexamples and witnesses: sessions
`A` (bound, Banneret of Iron, at the origin), `B` (bound, Aspirant of
Iron, 200px away), `C` (bound admin, Justicar of Wolf, 500px away) and
`U` (connected but never entered the world, at the default origin). -/

/-- Session `A`: bound, eligible to send faction chat. -/
def pA : Player :=
  { account_id := ("acct1"), is_admin := false, character_id := some ("c1"),
    name := some ("Alice"), rank := some ("Banneret"), allegiance := some ("Iron"),
    x := 0, y := 0 }

/-- Session `B`: bound, lowest rank, same allegiance as `A`, in `say` range of `A`. -/
def pB : Player :=
  { account_id := ("acct2"), is_admin := false, character_id := some ("c2"),
    name := some ("Bob"), rank := some ("Aspirant"), allegiance := some ("Iron"),
    x := 200, y := 0 }

/-- Session `C`: bound admin of a different allegiance, out of `say` range of `A`. -/
def pC : Player :=
  { account_id := ("acct3"), is_admin := true, character_id := some ("c3"),
    name := some ("Cara"), rank := some ("Justicar"), allegiance := some ("Wolf"),
    x := 500, y := 0 }

/-- Session `U`: authenticated but unbound, at the default `(0,0)`. -/
def pU : Player :=
  { account_id := ("acct4"), is_admin := false, character_id := none,
    name := none, rank := none, allegiance := none, x := 0, y := 0 }

/-- The scenario registry. -/
def stW : ServerState :=
  { connected_players := [(("A"), pA), (("B"), pB), (("C"), pC), (("U"), pU)],
    char_to_sid := [(("c1"), ("A")), (("c2"), ("B")), (("c3"), ("C"))] }

/-- A character owned by `U`'s account, with null rank and allegiance
columns, used to exercise the bind-time defaulting. -/
def chD : Character :=
  { id := ("c4"), account_id := ("acct4"), name := ("Dana"),
    rp_rank := none, allegiance := none }

/-- Character table for the scenario. -/
def charsW : CharId → Option Character := fun c => if c = "c4" then some chD else none

/-- Token decoder for the connect scenarios: `"tok"` decodes to a payload
whose `account_id` claim is `"acct9"`. -/
def decW : String → Option JwtPayload :=
  fun t => if t = "tok" then some { account_id := some ("acct9") } else none

/-- Account table for the connect scenarios: `"acct9"` is a BANNED account. -/
def accW : String → Option Account :=
  fun i =>
    if i = "acct9" then
      some { id := ("acct9"), username := ("mallory"), is_admin := false, is_banned := true }
    else none

/-- The empty initial state. -/
def st0 : ServerState := { connected_players := [], char_to_sid := [] }

/-- Character table for the rebind trace: `c5` and `c6` both belong to
account `acct5`. -/
def charsR : CharId → Option Character :=
  fun c =>
    if c = "c5" then
      some { id := ("c5"), account_id := ("acct5"), name := ("Rin"),
             rp_rank := some ("Aspirant"), allegiance := some ("None") }
    else if c = "c6" then
      some { id := ("c6"), account_id := ("acct5"), name := ("Ron"),
             rp_rank := some ("Aspirant"), allegiance := some ("None") }
    else none

/-- Token decoder for the rebind trace. -/
def decR : String → Option JwtPayload :=
  fun t => if t = "tokR" then some { account_id := some ("acct5") } else none

/-- Account table for the rebind trace. -/
def accR : String → Option Account :=
  fun i =>
    if i = "acct5" then
      some { id := ("acct5"), username := ("rin"), is_admin := false, is_banned := false }
    else none

/-- A second character owned by `A`'s account, used to exercise an
in-session rebind of the already-bound session `A`. -/
def chE : Character :=
  { id := ("c9"), account_id := ("acct1"), name := ("Evan"),
    rp_rank := some ("Justicar"), allegiance := some ("Wolf") }

/-- Character table containing only `chE`. -/
def charsW2 : CharId → Option Character := fun c => if c = "c9" then some chE else none

/-- `join_world` payload rebinding session `A` to `c9`. -/
def dRe : JoinData := { character_id := some ("c9"), x := some 7, y := some 8 }

/-- The state after connect `R`, join `c5`, join `c6` — a rebind trace
built only from connect and join-world events. -/
def stRebind : ServerState :=
  (handle_join_world charsR
    (handle_join_world charsR
      (handle_connect decR accR st0 ("R") (some { token := some ("tokR") })).1
      ("R") { character_id := some ("c5"), x := some 1, y := some 2 }).1
    ("R") { character_id := some ("c6"), x := some 3, y := some 4 }).1

/-- Recognise a `player_joined` event addressed to `s`. -/
def isJoinedTo (s : Sid) (e : Event) : Bool :=
  match e with
  | Event.playerJoined _ t => t == s
  | _ => false

/-- A 2001-character message, one over the chat length limit. -/
def bigText : String := String.mk (List.replicate 2001 ('a'))

/-- A `say` chat event carrying the oversized text. -/
def dBig : ChatData :=
  { msgType := some ("say"), text := some bigText, target := none, color := none }

/-- A well-formed faction chat event. -/
def dFac : ChatData :=
  { msgType := some ("faction"), text := some ("hello"), target := none, color := none }

/-- An admin whisper to a display name nobody in the scenario carries. -/
def dAW : ChatData :=
  { msgType := some ("admin_whisper"), text := some ("hi"), target := some ("Ghost"),
    color := none }

/-- `join_world` payload for session `U` entering with `c4`. -/
def dU : JoinData := { character_id := some ("c4"), x := some 10, y := some 20 }

/-! ### Association-list lemmas (Python-dict semantics) -/

theorem lookupD_insertD_self {β : Type} (l : List (String × β)) (k : String) (v : β) :
    lookupD (insertD l k v) k = some v := by
  induction l with
  | nil => simp [insertD, lookupD]
  | cons hd t ih =>
      obtain ⟨k0, v0⟩ := hd
      by_cases hk : k0 = k
      · subst hk; simp [insertD, lookupD]
      · simp [insertD, lookupD, hk, ih]

theorem lookupD_insertD_ne {β : Type} (l : List (String × β)) (k k2 : String) (v : β)
    (h : k2 ≠ k) : lookupD (insertD l k v) k2 = lookupD l k2 := by
  have hkk : k ≠ k2 := Ne.symm h
  induction l with
  | nil => simp [insertD, lookupD, hkk]
  | cons hd t ih =>
      obtain ⟨k0, v0⟩ := hd
      by_cases hk : k0 = k
      · subst hk
        simp [insertD, lookupD, hkk]
      · by_cases hk2 : k0 = k2
        · subst hk2
          simp [insertD, lookupD, hk]
        · simp [insertD, lookupD, hk, hk2, ih]

theorem lookupD_eraseD_self {β : Type} (l : List (String × β)) (k : String) :
    lookupD (eraseD l k) k = none := by
  induction l with
  | nil => simp [eraseD, lookupD]
  | cons hd t ih =>
      obtain ⟨k0, v0⟩ := hd
      by_cases hk : k0 = k
      · subst hk
        simpa [eraseD, List.filter_cons] using ih
      · simpa [eraseD, List.filter_cons, hk, lookupD] using ih

theorem lookupD_eraseD_ne {β : Type} (l : List (String × β)) (k k2 : String) (h : k2 ≠ k) :
    lookupD (eraseD l k) k2 = lookupD l k2 := by
  have hkk : k ≠ k2 := Ne.symm h
  induction l with
  | nil => simp [eraseD, lookupD]
  | cons hd t ih =>
      obtain ⟨k0, v0⟩ := hd
      by_cases hk : k0 = k
      · subst hk
        simpa [eraseD, List.filter_cons, lookupD, hkk] using ih
      · by_cases hk2 : k0 = k2
        · subst hk2
          simp [eraseD, List.filter_cons, lookupD, hk]
        · simpa [eraseD, List.filter_cons, lookupD, hk, hk2] using ih

theorem mem_insertD {β : Type} (l : List (String × β)) (k : String) (v : β)
    (kv : String × β) (h : kv ∈ insertD l k v) : kv ∈ l ∨ kv = (k, v) := by
  induction l with
  | nil =>
      simp only [insertD, List.mem_singleton] at h
      exact Or.inr h
  | cons hd t ih =>
      obtain ⟨k0, v0⟩ := hd
      by_cases hk : k0 = k
      · subst hk
        simp only [insertD, if_pos rfl] at h
        rcases List.mem_cons.mp h with h2 | h2
        · exact Or.inr h2
        · exact Or.inl (List.mem_cons_of_mem _ h2)
      · simp only [insertD, if_neg hk] at h
        rcases List.mem_cons.mp h with h2 | h2
        · exact Or.inl (List.mem_cons.mpr (Or.inl h2))
        · rcases ih h2 with h3 | h3
          · exact Or.inl (List.mem_cons_of_mem _ h3)
          · exact Or.inr h3

/-! ### Distance bridge -/

theorem inRangeB_iff_sqrt (x1 y1 x2 y2 r : ℚ) (hr : 0 ≤ r) :
    inRangeB x1 y1 x2 y2 r = true ↔
      Real.sqrt ((((x2 - x1) * (x2 - x1) + (y2 - y1) * (y2 - y1) : ℚ)) : ℝ) ≤ (r : ℝ) := by
  rw [inRangeB, decide_eq_true_eq]
  rw [Real.sqrt_le_left (by exact_mod_cast hr)]
  rw [show ((r : ℝ)) ^ 2 = (((r * r : ℚ)) : ℝ) by push_cast; ring]
  exact (Rat.cast_le).symm

/-! ### Concrete range facts for the scenario positions at radius 256 -/

theorem inRange_AB : inRangeB 0 0 200 0 256 = true := by
  norm_num [inRangeB]

theorem inRange_AC : inRangeB 0 0 500 0 256 = false := by
  norm_num [inRangeB]

theorem inRange_AU : inRangeB 0 0 0 0 256 = true := by
  norm_num [inRangeB]

/-! ### Claim theorems -/

/-- Claim C9: a chat event whose text is empty after trimming, or longer
than 2000 characters, is silently dropped on every channel: the handler
returns the registry unchanged and emits no event at all (no delivery,
no `chat_error`). -/
theorem C9_invalid_text_dropped (st : ServerState) (sid : Sid) (data : ChatData)
    (h : pyStrip (data.text.getD ("")) = "" ∨ (pyStrip (data.text.getD (""))).length > 2000) :
    handle_chat st sid data = (st, []) := by
  rw [handle_chat]
  cases hl : lookupD st.connected_players sid with
  | none => rfl
  | some player =>
      by_cases hb : optFalsy player.character_id = true
      · simp [hb]
      · simp only [Bool.not_eq_true] at hb
        simp [hb, if_pos h]

/-- Witness for C9: a 2001-character `say` message produces zero
outbound events and leaves the registry unchanged. -/
theorem C9_invalid_text_dropped_witness :
    (pyStrip (dBig.text.getD ("")) = "" ∨ (pyStrip (dBig.text.getD (""))).length > 2000) ∧
    handle_chat stW ("A") dBig = (stW, []) := by
  have h1 : List.replicate 2001 ('a') = ('a') :: List.replicate 2000 ('a') := rfl
  have h2 : dropWs (List.replicate 2001 ('a')) = List.replicate 2001 ('a') := by
    rw [h1]
    rfl
  have hlen : (pyStrip (dBig.text.getD (""))).length > 2000 := by
    show ((dropWs ((dropWs (List.replicate 2001 ('a'))).reverse)).reverse).length > 2000
    rw [h2, List.reverse_replicate, h2, List.reverse_replicate, List.length_replicate]
    norm_num
  exact ⟨Or.inr hlen, C9_invalid_text_dropped stW ("A") dBig (Or.inr hlen)⟩

/-- Claim C7: disconnect is idempotent — a second disconnect for the
same sid finds no session, changes nothing and emits nothing, and every
`player_left` event emitted across both calls comes from the first call
removing a session with a bound character. -/
theorem C7_disconnect_idempotent (st : ServerState) (sid : Sid) :
    (handle_disconnect (handle_disconnect st sid).1 sid).1 = (handle_disconnect st sid).1 ∧
    (handle_disconnect (handle_disconnect st sid).1 sid).2 = [] ∧
    (∀ c s, Event.playerLeft c s ∈ (handle_disconnect st sid).2 →
      ∃ p, lookupD st.connected_players sid = some p ∧ p.character_id = some c) ∧
    (∀ p, lookupD st.connected_players sid = some p → p.character_id = none →
      (handle_disconnect st sid).2 = []) ∧
    (lookupD st.connected_players sid = none → handle_disconnect st sid = (st, [])) := by
  cases hl : lookupD st.connected_players sid with
  | none =>
      have h1 : handle_disconnect st sid = (st, []) := by simp [handle_disconnect, hl]
      refine ⟨by rw [h1]; rw [h1], by rw [h1]; rw [h1], ?_, ?_, fun _ => h1⟩
      · intro c s hmem
        rw [h1] at hmem
        simp at hmem
      · intro p hp
        exact absurd hp (by simp)
  | some player =>
      cases hpc : player.character_id with
      | none =>
          have h1 : handle_disconnect st sid =
              ({ connected_players := eraseD st.connected_players sid,
                 char_to_sid := st.char_to_sid }, []) := by
            simp [handle_disconnect, hl, hpc]
          have h3 : handle_disconnect (handle_disconnect st sid).1 sid =
              ((handle_disconnect st sid).1, []) := by
            rw [h1]
            simp [handle_disconnect, lookupD_eraseD_self]
          refine ⟨by rw [h3], by rw [h3], ?_, ?_, ?_⟩
          · intro c s hmem
            rw [h1] at hmem
            simp at hmem
          · intro p hp hpn
            rw [h1]
          · intro hnone
            exact absurd hnone (by simp)
      | some cid =>
          by_cases hc0 : cid = ""
          · have h1 : handle_disconnect st sid =
                ({ connected_players := eraseD st.connected_players sid,
                   char_to_sid := st.char_to_sid }, []) := by
              simp [handle_disconnect, hl, hpc, hc0]
            have h3 : handle_disconnect (handle_disconnect st sid).1 sid =
                ((handle_disconnect st sid).1, []) := by
              rw [h1]
              simp [handle_disconnect, lookupD_eraseD_self]
            refine ⟨by rw [h3], by rw [h3], ?_, ?_, ?_⟩
            · intro c s hmem
              rw [h1] at hmem
              simp at hmem
            · intro p hp hpn
              rw [h1]
            · intro hnone
              exact absurd hnone (by simp)
          · have h1 : handle_disconnect st sid =
                ({ connected_players := eraseD st.connected_players sid,
                   char_to_sid := eraseD st.char_to_sid cid },
                  ((eraseD st.connected_players sid).map Prod.fst).map
                    (fun s => Event.playerLeft cid s)) := by
              simp [handle_disconnect, hl, hpc, hc0]
            have h3 : handle_disconnect (handle_disconnect st sid).1 sid =
                ((handle_disconnect st sid).1, []) := by
              rw [h1]
              simp [handle_disconnect, lookupD_eraseD_self]
            refine ⟨by rw [h3], by rw [h3], ?_, ?_, ?_⟩
            · intro c s hmem
              rw [h1] at hmem
              simp only [List.mem_map] at hmem
              obtain ⟨s2, hs2, he⟩ := hmem
              injection he with he1 he2
              refine ⟨player, rfl, ?_⟩
              rw [hpc, he1]
            · intro p hp hpn
              have hpp : player = p := Option.some.inj hp
              have hcontra : (none : Option CharId) = some cid := by
                rw [← hpn, ← hpp]
                exact hpc
              exact absurd hcontra (by simp)
            · intro hnone
              exact absurd hnone (by simp)

/-- Witness for C7 at the scenario registry: disconnecting `A` twice. -/
theorem C7_disconnect_idempotent_witness :
    (handle_disconnect (handle_disconnect stW ("A")).1 ("A")).1 =
      (handle_disconnect stW ("A")).1 ∧
    (handle_disconnect (handle_disconnect stW ("A")).1 ("A")).2 = [] ∧
    (∀ c s, Event.playerLeft c s ∈ (handle_disconnect stW ("A")).2 →
      ∃ p, lookupD stW.connected_players ("A") = some p ∧ p.character_id = some c) ∧
    (∀ p, lookupD stW.connected_players ("A") = some p → p.character_id = none →
      (handle_disconnect stW ("A")).2 = []) ∧
    (lookupD stW.connected_players ("A") = none → handle_disconnect stW ("A") = (stW, [])) :=
  C7_disconnect_idempotent stW ("A")

/-- Claim C1 (code bug): `verify_token` returns the account without ever
consulting `is_banned`, so a connect event carrying a valid token for a
banned account creates a session and emits no force-close — evaluated
here on an explicit banned account. -/
theorem C1_banned_account_session_created :
    (handle_connect decW accW st0 ("S") (some { token := some ("tok") })).2 = [] ∧
    (∃ p, lookupD
        (handle_connect decW accW st0 ("S") (some { token := some ("tok") })).1.connected_players
        ("S") = some p ∧ p.account_id = ("acct9")) ∧
    (accW ("acct9")).map Account.is_banned = some true :=
  ⟨rfl,
    ⟨{ account_id := ("acct9"), is_admin := false, character_id := none, name := none,
       rank := none, allegiance := none, x := 0, y := 0 }, rfl, rfl⟩,
    rfl⟩

/-- Claim C2 (counterexample): `players_in_range` does not exclude
unbound sessions — at the scenario state, the connected-but-unbound
session `U` (sitting at the default origin) IS yielded as a recipient
for origin `A` at radius 256, refuting "a connected-but-unbound session
is never a recipient". -/
theorem C2_unbound_recipient_cex :
    ("U") ∈ players_in_range stW ("A") 256 ∧
    lookupD stW.connected_players ("U") = some pU ∧ pU.character_id = none := by
  refine ⟨?_, rfl, rfl⟩
  simp [players_in_range, stW, pA, pB, pC, pU, lookupD, inRange_AB, inRange_AC, inRange_AU]

/-- Claim C2 (amended): for a bound origin session and nonnegative
radius, `players_in_range` yields a sid `S` iff `S` is a DIFFERENT
connected session (bound or not) whose Euclidean distance from the
origin is at most the radius. -/
theorem C2_in_range_amended (st : ServerState) (o : Sid) (r : ℚ) (po : Player) (S : Sid)
    (ho : lookupD st.connected_players o = some po) (hb : po.character_id.isSome = true)
    (hr : 0 ≤ r) :
    S ∈ players_in_range st o r ↔
      (S ≠ o ∧ ∃ q, (S, q) ∈ st.connected_players ∧
        Real.sqrt ((((q.x - po.x) * (q.x - po.x) + (q.y - po.y) * (q.y - po.y) : ℚ)) : ℝ)
          ≤ (r : ℝ)) := by
  rw [players_in_range, ho]
  constructor
  · intro h
    obtain ⟨kv, hmem, hS⟩ := List.mem_map.mp h
    obtain ⟨hin, hcond⟩ := List.mem_filter.mp hmem
    rw [Bool.and_eq_true] at hcond
    obtain ⟨hne, hrange⟩ := hcond
    subst hS
    refine ⟨by simpa using hne, kv.2, by simpa using hin, ?_⟩
    exact (inRangeB_iff_sqrt po.x po.y kv.2.x kv.2.y r hr).mp hrange
  · rintro ⟨hne, q, hmem, hd⟩
    refine List.mem_map.mpr ⟨(S, q), List.mem_filter.mpr ⟨hmem, ?_⟩, rfl⟩
    rw [Bool.and_eq_true]
    exact ⟨by simpa using hne, (inRangeB_iff_sqrt po.x po.y q.x q.y r hr).mpr hd⟩

/-- Witness for C2 at the scenario state: the membership
characterisation instantiated for recipient `B`, origin `A`, radius 256. -/
theorem C2_in_range_amended_witness :
    ("B") ∈ players_in_range stW ("A") 256 ↔
      (("B") ≠ ("A") ∧ ∃ q, (("B"), q) ∈ stW.connected_players ∧
        Real.sqrt ((((q.x - pA.x) * (q.x - pA.x) + (q.y - pA.y) * (q.y - pA.y) : ℚ)) : ℝ)
          ≤ ((256 : ℚ) : ℝ)) :=
  C2_in_range_amended stW ("A") 256 pA ("B") rfl rfl (by norm_num)

/-- Claim C6: on the faction channel, a sender whose rank is outside
`FACTION_SEND_RANKS` gets exactly one `chat_error` and nobody else gets
anything; an eligible sender with a real allegiance reaches exactly the
OTHER bound sessions of the same allegiance — with no rank condition on
the recipients — and no `chat_error` is emitted. -/
theorem C6_faction_gate_and_breadth (st : ServerState) (sid : Sid) (data : ChatData)
    (p : Player)
    (ho : lookupD st.connected_players sid = some p)
    (hbf : optFalsy p.character_id = false)
    (ht1 : pyStrip (data.text.getD ("")) ≠ "")
    (ht2 : (pyStrip (data.text.getD (""))).length ≤ 2000)
    (htype : pyLower (data.msgType.getD ("say")) = ("faction")) :
    (rankMem p.rank = false →
      (handle_chat st sid data).2 =
        [Event.chatError ("Only Banneret and above can use Faction chat.") sid]) ∧
    (∀ a, rankMem p.rank = true → p.allegiance = some a → a ≠ "" → a ≠ ("None") →
      (∀ S, (∃ pay, Event.chat pay S ∈ (handle_chat st sid data).2) ↔
        (S ≠ sid ∧ ∃ q, (S, q) ∈ st.connected_players ∧ optFalsy q.character_id = false ∧
          q.allegiance = some a)) ∧
      (∀ m S2, Event.chatError m S2 ∉ (handle_chat st sid data).2)) := by
  have hcond : ¬(pyStrip (data.text.getD ("")) = "" ∨
      (pyStrip (data.text.getD (""))).length > 2000) := by
    push_neg
    exact ⟨ht1, by omega⟩
  constructor
  · intro hrank
    simp [handle_chat, ho, hbf, hcond, htype, CHAT_RANGES, hrank]
  · intro a hrank hao ha1 ha2
    have hfal : optFalsy p.allegiance = false := by
      rw [hao]
      simp [optFalsy, ha1]
    have hbeq : (p.allegiance == some ("None")) = false := by
      rw [hao]
      simp [ha2]
    constructor
    · intro S
      constructor
      · intro hS
        obtain ⟨pay, hpay⟩ := hS
        simp only [handle_chat, ho, hbf, hcond, htype, CHAT_RANGES, hrank, hfal, hbeq] at hpay
        simp [hrank, hfal, hbeq, List.mem_map, List.mem_filter, hao] at hpay
        obtain ⟨⟨q, hmem, ⟨hne, hbound⟩, halleg⟩, hpayEq⟩ := hpay
        exact ⟨hne, q, hmem, hbound, halleg⟩
      · rintro ⟨hne, q, hmem, hbound, halleg⟩
        refine ⟨{ sender := p.name, sender_id := p.character_id,
                  text := pyStrip (data.text.getD ("")), msgType := ("faction"),
                  color := if optFalsy data.color = true then none else data.color,
                  target := none }, ?_⟩
        simp only [handle_chat, ho, hbf, hcond, htype, CHAT_RANGES, hrank, hfal, hbeq]
        simp [hrank, hfal, hbeq, List.mem_map, List.mem_filter, hao]
        exact ⟨q, hmem, ⟨hne, hbound⟩, halleg⟩
    · intro m S2 hmem
      simp only [handle_chat, ho, hbf, hcond, htype, CHAT_RANGES, hrank, hfal, hbeq] at hmem
      simp [hrank, hfal, hbeq, List.mem_map] at hmem

/-- Witness for C6 at the scenario state: sender `A` (Banneret of Iron)
on a valid faction message. -/
theorem C6_faction_gate_and_breadth_witness :
    (rankMem pA.rank = false →
      (handle_chat stW ("A") dFac).2 =
        [Event.chatError ("Only Banneret and above can use Faction chat.") ("A")]) ∧
    (∀ a, rankMem pA.rank = true → pA.allegiance = some a → a ≠ "" → a ≠ ("None") →
      (∀ S, (∃ pay, Event.chat pay S ∈ (handle_chat stW ("A") dFac).2) ↔
        (S ≠ ("A") ∧ ∃ q, (S, q) ∈ stW.connected_players ∧ optFalsy q.character_id = false ∧
          q.allegiance = some a)) ∧
      (∀ m S2, Event.chatError m S2 ∉ (handle_chat stW ("A") dFac).2)) :=
  C6_faction_gate_and_breadth stW ("A") dFac pA rfl rfl (by decide) (by decide) rfl

/-- Claim C3 (counterexample): a NON-admin bound sender issuing an
`admin_whisper` is dropped silently — zero events, not "exactly one
typed chat_error", refuting the claim at this input. -/
theorem C3_admin_gate_silent_cex :
    (handle_chat stW ("A") dAW).2 = [] ∧ pA.is_admin = false ∧
    lookupD stW.connected_players ("A") = some pA ∧
    pyLower (dAW.msgType.getD ("say")) = ("admin_whisper") ∧
    pyStrip (dAW.text.getD ("")) ≠ "" := by
  refine ⟨?_, rfl, rfl, rfl, by decide⟩
  rfl

/-- Claim C3 (amended): the faction rank gate, the faction
missing-allegiance gate and an offline `admin_whisper` target each emit
exactly one typed `chat_error` to the sender and deliver nothing; the
admin gates of `admin_whisper` and `announce`, and a missing
`admin_whisper` target, drop the event silently (no error, no
delivery). -/
theorem C3_permission_failures_amended (st : ServerState) (sid : Sid) (data : ChatData)
    (p : Player)
    (ho : lookupD st.connected_players sid = some p)
    (hbf : optFalsy p.character_id = false)
    (ht1 : pyStrip (data.text.getD ("")) ≠ "")
    (ht2 : (pyStrip (data.text.getD (""))).length ≤ 2000) :
    (pyLower (data.msgType.getD ("say")) = ("faction") → rankMem p.rank = false →
      (handle_chat st sid data).2 =
        [Event.chatError ("Only Banneret and above can use Faction chat.") sid]) ∧
    (pyLower (data.msgType.getD ("say")) = ("faction") → rankMem p.rank = true →
      (optFalsy p.allegiance = true ∨ p.allegiance = some ("None")) →
      (handle_chat st sid data).2 =
        [Event.chatError ("You have no faction allegiance.") sid]) ∧
    (pyLower (data.msgType.getD ("say")) = ("admin_whisper") → p.is_admin = true →
      ∀ t, data.target = some t → t ≠ "" →
      (∀ s q, (s, q) ∈ st.connected_players → q.name ≠ some t) →
      (handle_chat st sid data).2 =
        [Event.chatError (("Player \x27") ++ t ++ ("\x27 not online.")) sid]) ∧
    (pyLower (data.msgType.getD ("say")) = ("admin_whisper") → p.is_admin = false →
      (handle_chat st sid data).2 = []) ∧
    (pyLower (data.msgType.getD ("say")) = ("admin_whisper") → p.is_admin = true →
      optFalsy data.target = true → (handle_chat st sid data).2 = []) ∧
    (pyLower (data.msgType.getD ("say")) = ("announce") → p.is_admin = false →
      (handle_chat st sid data).2 = []) := by
  have hcond : ¬(pyStrip (data.text.getD ("")) = "" ∨
      (pyStrip (data.text.getD (""))).length > 2000) := by
    push_neg
    exact ⟨ht1, by omega⟩
  refine ⟨?_, ?_, ?_, ?_, ?_, ?_⟩
  · intro htype hrank
    simp [handle_chat, ho, hbf, hcond, htype, CHAT_RANGES, hrank]
  · intro htype hrank hal
    rcases hal with hal | hal
    · simp [handle_chat, ho, hbf, hcond, htype, CHAT_RANGES, hrank, hal]
    · have hone : optFalsy (some ("None")) = false := by decide
      simp [handle_chat, ho, hbf, hcond, htype, CHAT_RANGES, hrank, hal, hone]
  · intro htype hadm t htg ht0 hnm
    have hf : st.connected_players.find? (fun kv => kv.2.name == some t) = none := by
      rw [List.find?_eq_none]
      intro kv hkv
      simp only [beq_iff_eq]
      intro hcontra
      exact hnm kv.1 kv.2 (by simpa using hkv) hcontra
    simp [handle_chat, ho, hbf, hcond, htype, CHAT_RANGES, hadm, htg, ht0, hf]
  · intro htype hadm
    simp [handle_chat, ho, hbf, hcond, htype, CHAT_RANGES, hadm]
  · intro htype hadm htgt
    cases hcase : data.target with
    | none => simp [handle_chat, ho, hbf, hcond, htype, CHAT_RANGES, hadm, hcase]
    | some tgt =>
        have h0 : tgt = "" := by
          rw [hcase] at htgt
          simpa [optFalsy] using htgt
        simp [handle_chat, ho, hbf, hcond, htype, CHAT_RANGES, hadm, hcase, h0]
  · intro htype hadm
    simp [handle_chat, ho, hbf, hcond, htype, CHAT_RANGES, hadm]

/-- Witness for C3 at the scenario state: the admin sender `C` and the
whisper to the offline name `Ghost`. -/
theorem C3_permission_failures_amended_witness :
    (pyLower (dAW.msgType.getD ("say")) = ("faction") → rankMem pC.rank = false →
      (handle_chat stW ("C") dAW).2 =
        [Event.chatError ("Only Banneret and above can use Faction chat.") ("C")]) ∧
    (pyLower (dAW.msgType.getD ("say")) = ("faction") → rankMem pC.rank = true →
      (optFalsy pC.allegiance = true ∨ pC.allegiance = some ("None")) →
      (handle_chat stW ("C") dAW).2 =
        [Event.chatError ("You have no faction allegiance.") ("C")]) ∧
    (pyLower (dAW.msgType.getD ("say")) = ("admin_whisper") → pC.is_admin = true →
      ∀ t, dAW.target = some t → t ≠ "" →
      (∀ s q, (s, q) ∈ stW.connected_players → q.name ≠ some t) →
      (handle_chat stW ("C") dAW).2 =
        [Event.chatError (("Player \x27") ++ t ++ ("\x27 not online.")) ("C")]) ∧
    (pyLower (dAW.msgType.getD ("say")) = ("admin_whisper") → pC.is_admin = false →
      (handle_chat stW ("C") dAW).2 = []) ∧
    (pyLower (dAW.msgType.getD ("say")) = ("admin_whisper") → pC.is_admin = true →
      optFalsy dAW.target = true → (handle_chat stW ("C") dAW).2 = []) ∧
    (pyLower (dAW.msgType.getD ("say")) = ("announce") → pC.is_admin = false →
      (handle_chat stW ("C") dAW).2 = []) :=
  C3_permission_failures_amended stW ("C") dAW pC rfl rfl (by decide) (by decide)

/-- Claim C4 (counterexample): session `A` is bound to `c1`, yet a
second `join_world` for the owned character `c9` succeeds and rebinds
the session — and the old reverse-index entry `c1 → A` survives. -/
theorem C4_rebind_cex :
    lookupD stW.connected_players ("A") = some pA ∧ pA.character_id = some ("c1") ∧
    (∃ p2, lookupD (handle_join_world charsW2 stW ("A") dRe).1.connected_players ("A") =
        some p2 ∧ p2.character_id = some ("c9")) ∧
    lookupD (handle_join_world charsW2 stW ("A") dRe).1.char_to_sid ("c1") = some ("A") :=
  ⟨rfl, rfl,
    ⟨{ account_id := ("acct1"), is_admin := false, character_id := some ("c9"),
       name := some ("Evan"), rank := some ("Justicar"), allegiance := some ("Wolf"),
       x := 7, y := 8 }, rfl, rfl⟩,
    rfl⟩

/-- Claim C4 (amended): `handle_join_world` never checks for an existing
binding — for an already-bound session and a valid owned character it
succeeds, replaces the session's binding with the new character, writes
the new reverse-index entry, and leaves the old character's
reverse-index entry untouched (stale). -/
theorem C4_rebind_amended (characters : CharId → Option Character) (st : ServerState)
    (sid : Sid) (data : JoinData) (p : Player) (c0 cid : CharId) (ch : Character)
    (hp : lookupD st.connected_players sid = some p)
    (hc0 : p.character_id = some c0)
    (hcid : data.character_id = some cid) (hne : cid ≠ "")
    (hch : characters cid = some ch) (hown : ch.account_id = p.account_id) :
    (∃ p2, lookupD (handle_join_world characters st sid data).1.connected_players sid =
        some p2 ∧ p2.character_id = some ch.id) ∧
    lookupD (handle_join_world characters st sid data).1.char_to_sid ch.id = some sid ∧
    (c0 ≠ ch.id →
      lookupD (handle_join_world characters st sid data).1.char_to_sid c0 =
        lookupD st.char_to_sid c0) := by
  have hw : (handle_join_world characters st sid data).1 =
      { connected_players :=
          insertD st.connected_players sid
            { p with
              character_id := some ch.id, name := some ch.name,
              rank := some (pyOr ch.rp_rank ("Aspirant")),
              allegiance := some (pyOr ch.allegiance ("None")),
              x := data.x.getD 0, y := data.y.getD 0 },
        char_to_sid := insertD st.char_to_sid ch.id sid } := by
    simp [handle_join_world, hp, hcid, hne, hch, hown]
  refine ⟨⟨{ p with
             character_id := some ch.id, name := some ch.name,
             rank := some (pyOr ch.rp_rank ("Aspirant")),
             allegiance := some (pyOr ch.allegiance ("None")),
             x := data.x.getD 0, y := data.y.getD 0 }, ?_, rfl⟩, ?_, ?_⟩
  · rw [hw]
    exact lookupD_insertD_self _ _ _
  · rw [hw]
    exact lookupD_insertD_self _ _ _
  · intro hcne
    rw [hw]
    exact lookupD_insertD_ne _ _ _ _ hcne

/-- Witness for C4 at the scenario state: rebinding `A` from `c1` to `c9`. -/
theorem C4_rebind_amended_witness :
    (∃ p2, lookupD (handle_join_world charsW2 stW ("A") dRe).1.connected_players ("A") =
        some p2 ∧ p2.character_id = some chE.id) ∧
    lookupD (handle_join_world charsW2 stW ("A") dRe).1.char_to_sid chE.id = some ("A") ∧
    (("c1") ≠ chE.id →
      lookupD (handle_join_world charsW2 stW ("A") dRe).1.char_to_sid ("c1") =
        lookupD stW.char_to_sid ("c1")) :=
  C4_rebind_amended charsW2 stW ("A") dRe pA ("c1") ("c9") chE rfl rfl rfl
    (by decide) rfl rfl

/-- Membership characterisation shared by the join-world event lists:
an event `player_joined … → sid` in roster-plus-broadcast comes exactly
from an OTHER bound entry of the iterated registry. -/
theorem joined_mem_iff (L : List (Sid × Player)) (sid : Sid) (jd : JoinInfo)
    (info : JoinInfo) :
    Event.playerJoined info sid ∈
      ((L.filter (fun kv => (kv.1 != sid) && !(optFalsy kv.2.character_id))).map
        (fun kv => Event.playerJoined
          { id := kv.2.character_id, name := kv.2.name, rank := kv.2.rank,
            allegiance := kv.2.allegiance, x := kv.2.x, y := kv.2.y } sid) ++
       (L.filter (fun kv => (kv.1 != sid) && !(optFalsy kv.2.character_id))).map
        (fun kv => Event.playerJoined jd kv.1)) ↔
    (∃ s q, (s, q) ∈ L ∧ s ≠ sid ∧ optFalsy q.character_id = false ∧
      info = { id := q.character_id, name := q.name, rank := q.rank,
               allegiance := q.allegiance, x := q.x, y := q.y }) := by
  rw [List.mem_append]
  constructor
  · intro h
    rcases h with h | h
    · obtain ⟨kv, hkv, he⟩ := List.mem_map.mp h
      obtain ⟨hmem, hcond⟩ := List.mem_filter.mp hkv
      rw [Bool.and_eq_true] at hcond
      injection he with he1 he2
      exact ⟨kv.1, kv.2, by simpa using hmem, by simpa using hcond.1,
        by simpa using hcond.2, he1.symm⟩
    · obtain ⟨kv, hkv, he⟩ := List.mem_map.mp h
      obtain ⟨hmem, hcond⟩ := List.mem_filter.mp hkv
      rw [Bool.and_eq_true] at hcond
      injection he with he1 he2
      exact absurd he2 (by simpa using hcond.1)
  · rintro ⟨s, q, hmem, hsne, hbound, rfl⟩
    left
    refine List.mem_map.mpr ⟨(s, q), List.mem_filter.mpr ⟨hmem, ?_⟩, rfl⟩
    rw [Bool.and_eq_true]
    exact ⟨by simpa using hsne, by simp [hbound]⟩

/-- Counting lemma shared by the join-world event lists: the events of
the combined list addressed to `sid` are exactly the roster, one per
other bound entry. -/
theorem joined_count (L : List (Sid × Player)) (sid : Sid) (jd : JoinInfo) :
    (((L.filter (fun kv => (kv.1 != sid) && !(optFalsy kv.2.character_id))).map
        (fun kv => Event.playerJoined
          { id := kv.2.character_id, name := kv.2.name, rank := kv.2.rank,
            allegiance := kv.2.allegiance, x := kv.2.x, y := kv.2.y } sid) ++
      (L.filter (fun kv => (kv.1 != sid) && !(optFalsy kv.2.character_id))).map
        (fun kv => Event.playerJoined jd kv.1)).filter (isJoinedTo sid)).length =
    (L.filter (fun kv => (kv.1 != sid) && !(optFalsy kv.2.character_id))).length := by
  rw [List.filter_append]
  have h1 : ((L.filter (fun kv => (kv.1 != sid) && !(optFalsy kv.2.character_id))).map
      (fun kv => Event.playerJoined
        { id := kv.2.character_id, name := kv.2.name, rank := kv.2.rank,
          allegiance := kv.2.allegiance, x := kv.2.x, y := kv.2.y } sid)).filter
        (isJoinedTo sid) =
      (L.filter (fun kv => (kv.1 != sid) && !(optFalsy kv.2.character_id))).map
      (fun kv => Event.playerJoined
        { id := kv.2.character_id, name := kv.2.name, rank := kv.2.rank,
          allegiance := kv.2.allegiance, x := kv.2.x, y := kv.2.y } sid) := by
    rw [List.filter_eq_self]
    intro e he
    obtain ⟨kv, hkv, rfl⟩ := List.mem_map.mp he
    simp [isJoinedTo]
  have h2 : ((L.filter (fun kv => (kv.1 != sid) && !(optFalsy kv.2.character_id))).map
      (fun kv => Event.playerJoined jd kv.1)).filter (isJoinedTo sid) = [] := by
    rw [List.filter_eq_nil_iff]
    intro e he
    obtain ⟨kv, hkv, rfl⟩ := List.mem_map.mp he
    obtain ⟨hmem, hcond⟩ := List.mem_filter.mp hkv
    rw [Bool.and_eq_true] at hcond
    have : kv.1 ≠ sid := by simpa using hcond.1
    simp [isJoinedTo, this]
  rw [h1, h2, List.append_nil, List.length_map]

/-- Claim C8: after a successful join, the `player_joined` events sent
TO the joining session (the roster) are exactly one per OTHER in-world
session of the post-bind registry snapshot, and each of them arises from
a session other than the joiner — never the joiner's own entry. -/
theorem C8_roster_excludes_self (characters : CharId → Option Character) (st : ServerState)
    (sid : Sid) (data : JoinData) (p : Player) (cid : CharId) (ch : Character)
    (hp : lookupD st.connected_players sid = some p)
    (hcid : data.character_id = some cid) (hne : cid ≠ "")
    (hch : characters cid = some ch) (hown : ch.account_id = p.account_id) :
    (∀ info, Event.playerJoined info sid ∈ (handle_join_world characters st sid data).2 ↔
      ∃ s q, (s, q) ∈ (handle_join_world characters st sid data).1.connected_players ∧
        s ≠ sid ∧ optFalsy q.character_id = false ∧
        info = { id := q.character_id, name := q.name, rank := q.rank,
                 allegiance := q.allegiance, x := q.x, y := q.y }) ∧
    ((handle_join_world characters st sid data).2.filter (isJoinedTo sid)).length =
      ((handle_join_world characters st sid data).1.connected_players.filter
        (fun kv => (kv.1 != sid) && !(optFalsy kv.2.character_id))).length := by
  have hred : handle_join_world characters st sid data =
      ({ connected_players :=
           insertD st.connected_players sid
             { p with
               character_id := some ch.id, name := some ch.name,
               rank := some (pyOr ch.rp_rank ("Aspirant")),
               allegiance := some (pyOr ch.allegiance ("None")),
               x := data.x.getD 0, y := data.y.getD 0 },
         char_to_sid := insertD st.char_to_sid ch.id sid },
        ((insertD st.connected_players sid
            { p with
              character_id := some ch.id, name := some ch.name,
              rank := some (pyOr ch.rp_rank ("Aspirant")),
              allegiance := some (pyOr ch.allegiance ("None")),
              x := data.x.getD 0, y := data.y.getD 0 }).filter
            (fun kv => (kv.1 != sid) && !(optFalsy kv.2.character_id))).map
          (fun kv => Event.playerJoined
            { id := kv.2.character_id, name := kv.2.name, rank := kv.2.rank,
              allegiance := kv.2.allegiance, x := kv.2.x, y := kv.2.y } sid) ++
        ((insertD st.connected_players sid
            { p with
              character_id := some ch.id, name := some ch.name,
              rank := some (pyOr ch.rp_rank ("Aspirant")),
              allegiance := some (pyOr ch.allegiance ("None")),
              x := data.x.getD 0, y := data.y.getD 0 }).filter
            (fun kv => (kv.1 != sid) && !(optFalsy kv.2.character_id))).map
          (fun kv => Event.playerJoined
            { id := some ch.id, name := some ch.name,
              rank := some (pyOr ch.rp_rank ("Aspirant")),
              allegiance := some (pyOr ch.allegiance ("None")),
              x := data.x.getD 0, y := data.y.getD 0 } kv.1)) := by
    simp [handle_join_world, hp, hcid, hne, hch, hown]
  rw [hred]
  exact ⟨fun info => joined_mem_iff _ sid _ info, joined_count _ sid _⟩

/-- Witness for C8 at the scenario state: the unbound session `U` joins
with its character `c4`. -/
theorem C8_roster_excludes_self_witness :
    (∀ info, Event.playerJoined info ("U") ∈
        (handle_join_world charsW stW ("U")
          { character_id := some ("c4"), x := some 10, y := some 20 }).2 ↔
      ∃ s q, (s, q) ∈ (handle_join_world charsW stW ("U")
          { character_id := some ("c4"), x := some 10, y := some 20 }).1.connected_players ∧
        s ≠ ("U") ∧ optFalsy q.character_id = false ∧
        info = { id := q.character_id, name := q.name, rank := q.rank,
                 allegiance := q.allegiance, x := q.x, y := q.y }) ∧
    ((handle_join_world charsW stW ("U")
        { character_id := some ("c4"), x := some 10, y := some 20 }).2.filter
        (isJoinedTo ("U"))).length =
      ((handle_join_world charsW stW ("U")
          { character_id := some ("c4"), x := some 10, y := some 20 }).1.connected_players.filter
        (fun kv => (kv.1 != ("U")) && !(optFalsy kv.2.character_id))).length :=
  C8_roster_excludes_self charsW stW ("U")
    { character_id := some ("c4"), x := some 10, y := some 20 } pU ("c4") chD
    rfl rfl (by decide) rfl rfl

/-- Python `or` with a falsy left operand yields the default. -/
theorem pyOr_of_falsy (v : Option String) (d : String) (h : optFalsy v = true) :
    pyOr v d = d := by
  cases v with
  | none => rfl
  | some s =>
      simp only [optFalsy, decide_eq_true_eq] at h
      simp [pyOr, h]

/-- Claim C10: a successful bind snapshots `rp_rank or "Aspirant"` and
`allegiance or "None"` into the session, so rank and allegiance are
always concrete strings; a null/empty column yields the default; every
`player_joined` payload of the join (roster and broadcast) carries
concrete rank/allegiance strings (given the invariant that existing
bound sessions do); and a defaulted-allegiance player sending faction
chat with an eligible rank hits exactly the "no allegiance" rejection. -/
theorem C10_bind_defaults (characters : CharId → Option Character) (st : ServerState)
    (sid : Sid) (data : JoinData) (p : Player) (cid : CharId) (ch : Character)
    (hp : lookupD st.connected_players sid = some p)
    (hcid : data.character_id = some cid) (hne : cid ≠ "")
    (hch : characters cid = some ch) (hown : ch.account_id = p.account_id)
    (hid : ch.id = cid)
    (hWF : ∀ s q, (s, q) ∈ st.connected_players → optFalsy q.character_id = false →
      q.rank.isSome = true ∧ q.allegiance.isSome = true) :
    ∃ p2, lookupD (handle_join_world characters st sid data).1.connected_players sid =
        some p2 ∧
      p2.rank = some (pyOr ch.rp_rank ("Aspirant")) ∧
      p2.allegiance = some (pyOr ch.allegiance ("None")) ∧
      (optFalsy ch.rp_rank = true → p2.rank = some ("Aspirant")) ∧
      (optFalsy ch.allegiance = true → p2.allegiance = some ("None")) ∧
      p2.rank.isSome = true ∧ p2.allegiance.isSome = true ∧
      (∀ info s, Event.playerJoined info s ∈ (handle_join_world characters st sid data).2 →
        info.rank.isSome = true ∧ info.allegiance.isSome = true) ∧
      (optFalsy ch.allegiance = true → rankMem p2.rank = true →
        ∀ cdata : ChatData, pyLower (cdata.msgType.getD ("say")) = ("faction") →
          pyStrip (cdata.text.getD ("")) ≠ "" →
          (pyStrip (cdata.text.getD (""))).length ≤ 2000 →
          (handle_chat (handle_join_world characters st sid data).1 sid cdata).2 =
            [Event.chatError ("You have no faction allegiance.") sid]) := by
  have hred : handle_join_world characters st sid data =
      ({ connected_players :=
           insertD st.connected_players sid
             { p with
               character_id := some ch.id, name := some ch.name,
               rank := some (pyOr ch.rp_rank ("Aspirant")),
               allegiance := some (pyOr ch.allegiance ("None")),
               x := data.x.getD 0, y := data.y.getD 0 },
         char_to_sid := insertD st.char_to_sid ch.id sid },
        ((insertD st.connected_players sid
            { p with
              character_id := some ch.id, name := some ch.name,
              rank := some (pyOr ch.rp_rank ("Aspirant")),
              allegiance := some (pyOr ch.allegiance ("None")),
              x := data.x.getD 0, y := data.y.getD 0 }).filter
            (fun kv => (kv.1 != sid) && !(optFalsy kv.2.character_id))).map
          (fun kv => Event.playerJoined
            { id := kv.2.character_id, name := kv.2.name, rank := kv.2.rank,
              allegiance := kv.2.allegiance, x := kv.2.x, y := kv.2.y } sid) ++
        ((insertD st.connected_players sid
            { p with
              character_id := some ch.id, name := some ch.name,
              rank := some (pyOr ch.rp_rank ("Aspirant")),
              allegiance := some (pyOr ch.allegiance ("None")),
              x := data.x.getD 0, y := data.y.getD 0 }).filter
            (fun kv => (kv.1 != sid) && !(optFalsy kv.2.character_id))).map
          (fun kv => Event.playerJoined
            { id := some ch.id, name := some ch.name,
              rank := some (pyOr ch.rp_rank ("Aspirant")),
              allegiance := some (pyOr ch.allegiance ("None")),
              x := data.x.getD 0, y := data.y.getD 0 } kv.1)) := by
    simp [handle_join_world, hp, hcid, hne, hch, hown]
  refine ⟨{ p with
            character_id := some ch.id, name := some ch.name,
            rank := some (pyOr ch.rp_rank ("Aspirant")),
            allegiance := some (pyOr ch.allegiance ("None")),
            x := data.x.getD 0, y := data.y.getD 0 },
    ?_, rfl, rfl, ?_, ?_, rfl, rfl, ?_, ?_⟩
  · rw [hred]
    exact lookupD_insertD_self _ _ _
  · intro hfr
    simp [pyOr_of_falsy _ _ hfr]
  · intro hfa
    simp [pyOr_of_falsy _ _ hfa]
  · intro info s hmem
    rw [hred] at hmem
    rcases List.mem_append.mp hmem with h | h
    · obtain ⟨kv, hkv, he⟩ := List.mem_map.mp h
      obtain ⟨hmem2, hcond⟩ := List.mem_filter.mp hkv
      rw [Bool.and_eq_true] at hcond
      have hbd : optFalsy kv.2.character_id = false := by simpa using hcond.2
      injection he with he1 he2
      rcases mem_insertD _ _ _ kv hmem2 with hin | heq
      · have hq := hWF kv.1 kv.2 (by simpa using hin) hbd
        rw [← he1]
        simpa using hq
      · rw [← he1, heq]
        simp
    · obtain ⟨kv, hkv, he⟩ := List.mem_map.mp h
      injection he with he1 he2
      rw [← he1]
      simp
  · intro hfal hrank cdata hty htx1 htx2
    have hl2 : lookupD (handle_join_world characters st sid data).1.connected_players sid =
        some { p with
               character_id := some ch.id, name := some ch.name,
               rank := some (pyOr ch.rp_rank ("Aspirant")),
               allegiance := some (pyOr ch.allegiance ("None")),
               x := data.x.getD 0, y := data.y.getD 0 } := by
      rw [hred]
      exact lookupD_insertD_self _ _ _
    have hbf2 : optFalsy (some ch.id) = false := by
      simp [optFalsy, hid, hne]
    have hcond2 : ¬(pyStrip (cdata.text.getD ("")) = "" ∨
        (pyStrip (cdata.text.getD (""))).length > 2000) := by
      push_neg
      exact ⟨htx1, by omega⟩
    have hone : optFalsy (some ("None")) = false := by decide
    have hal2 : pyOr ch.allegiance ("None") = ("None") := pyOr_of_falsy _ _ hfal
    simp [handle_chat, hl2, hbf2, hcond2, hty, CHAT_RANGES, hrank, hal2, hone]

/-- Witness for C10 at the scenario state: `U` binds `c4`, whose rank
and allegiance columns are null. -/
theorem C10_bind_defaults_witness :
    ∃ p2, lookupD (handle_join_world charsW stW ("U") dU).1.connected_players ("U") =
        some p2 ∧
      p2.rank = some (pyOr chD.rp_rank ("Aspirant")) ∧
      p2.allegiance = some (pyOr chD.allegiance ("None")) ∧
      (optFalsy chD.rp_rank = true → p2.rank = some ("Aspirant")) ∧
      (optFalsy chD.allegiance = true → p2.allegiance = some ("None")) ∧
      p2.rank.isSome = true ∧ p2.allegiance.isSome = true ∧
      (∀ info s, Event.playerJoined info s ∈ (handle_join_world charsW stW ("U") dU).2 →
        info.rank.isSome = true ∧ info.allegiance.isSome = true) ∧
      (optFalsy chD.allegiance = true → rankMem p2.rank = true →
        ∀ cdata : ChatData, pyLower (cdata.msgType.getD ("say")) = ("faction") →
          pyStrip (cdata.text.getD ("")) ≠ "" →
          (pyStrip (cdata.text.getD (""))).length ≤ 2000 →
          (handle_chat (handle_join_world charsW stW ("U") dU).1 ("U") cdata).2 =
            [Event.chatError ("You have no faction allegiance.") ("U")]) := by
  refine C10_bind_defaults charsW stW ("U") dU pU ("c4") chD rfl rfl (by decide) rfl rfl rfl ?_
  intro s q h hb
  simp only [stW, List.mem_cons, List.not_mem_nil, or_false] at h
  rcases h with h | h | h | h
  · injection h with h1 h2
    subst h1
    subst h2
    exact ⟨rfl, rfl⟩
  · injection h with h1 h2
    subst h1
    subst h2
    exact ⟨rfl, rfl⟩
  · injection h with h1 h2
    subst h1
    subst h2
    exact ⟨rfl, rfl⟩
  · injection h with h1 h2
    subst h1
    subst h2
    exact absurd hb (by decide)

/-- Induction core for the reverse-index invariant: along restricted
traces the reverse index stays a strict mirror of the forward map, and
no session is ever bound to the empty character id. -/
theorem reachable_mirror_aux (st : ServerState) (h : ReachableR st) :
    Mirror st ∧ NoEmptyBind st := by
  induction h with
  | init =>
      constructor
      · intro c s
        simp [lookupD]
      · intro s p hp
        simp [lookupD] at hp
  | conn st decode accounts sid auth hR hfresh ih =>
      obtain ⟨ihM, ihN⟩ := ih
      have hcases : (handle_connect decode accounts st sid auth).1 = st ∨
          ∃ acct : Account, (handle_connect decode accounts st sid auth).1 =
            { st with
              connected_players := insertD st.connected_players sid
                { account_id := acct.id, is_admin := acct.is_admin, character_id := none,
                  name := none, rank := none, allegiance := none, x := 0, y := 0 } } := by
        rw [handle_connect.eq_def]
        cases auth with
        | none => left; simp
        | some a =>
            cases ha : a.token with
            | none => left; simp [ha]
            | some t =>
                by_cases ht : t = ""
                · left; simp [ha, ht]
                · cases hv : verify_token decode accounts t with
                  | none => left; simp [ha, ht, hv]
                  | some acct =>
                      right
                      exact ⟨acct, by simp [ha, ht, hv]⟩
      rcases hcases with he | ⟨acct, he⟩
      · rw [he]
        exact ⟨ihM, ihN⟩
      · rw [he]
        constructor
        · intro c s
          constructor
          · intro h2
            obtain ⟨p, hp3, hpc3⟩ := (ihM c s).mp h2
            have hsne : s ≠ sid := by
              intro he2
              rw [he2, hfresh] at hp3
              exact Option.noConfusion hp3
            refine ⟨p, ?_, hpc3⟩
            rw [lookupD_insertD_ne _ _ _ _ hsne]
            exact hp3
          · rintro ⟨p, hp3, hpc3⟩
            by_cases hsne : s = sid
            · subst hsne
              rw [lookupD_insertD_self] at hp3
              have h4 := Option.some.inj hp3
              rw [← h4] at hpc3
              exact Option.noConfusion hpc3
            · rw [lookupD_insertD_ne _ _ _ _ hsne] at hp3
              exact (ihM c s).mpr ⟨p, hp3, hpc3⟩
        · intro s p hp2
          by_cases hsne : s = sid
          · subst hsne
            rw [lookupD_insertD_self] at hp2
            have h4 := Option.some.inj hp2
            rw [← h4]
            simp
          · rw [lookupD_insertD_ne _ _ _ _ hsne] at hp2
            exact ihN s p hp2
  | join st characters sid data hR hunb hfree hwfc ih =>
      obtain ⟨ihM, ihN⟩ := ih
      cases hp : lookupD st.connected_players sid with
      | none =>
          have he : (handle_join_world characters st sid data).1 = st := by
            simp [handle_join_world, hp]
          rw [he]
          exact ⟨ihM, ihN⟩
      | some player =>
          cases hcid : data.character_id with
          | none =>
              have he : (handle_join_world characters st sid data).1 = st := by
                simp [handle_join_world, hp, hcid]
              rw [he]
              exact ⟨ihM, ihN⟩
          | some cid =>
              by_cases hcid0 : cid = ""
              · have he : (handle_join_world characters st sid data).1 = st := by
                  simp [handle_join_world, hp, hcid, hcid0]
                rw [he]
                exact ⟨ihM, ihN⟩
              · cases hch : characters cid with
                | none =>
                    have he : (handle_join_world characters st sid data).1 = st := by
                      simp [handle_join_world, hp, hcid, hcid0, hch]
                    rw [he]
                    exact ⟨ihM, ihN⟩
                | some character =>
                    by_cases hown : character.account_id ≠ player.account_id
                    · have he : (handle_join_world characters st sid data).1 = st := by
                        simp [handle_join_world, hp, hcid, hcid0, hch, hown]
                      rw [he]
                      exact ⟨ihM, ihN⟩
                    · push_neg at hown
                      have hw : (handle_join_world characters st sid data).1 =
                          { connected_players := insertD st.connected_players sid
                              { player with
                                character_id := some character.id,
                                name := some character.name,
                                rank := some (pyOr character.rp_rank ("Aspirant")),
                                allegiance := some (pyOr character.allegiance ("None")),
                                x := data.x.getD 0, y := data.y.getD 0 },
                            char_to_sid := insertD st.char_to_sid character.id sid } := by
                        simp [handle_join_world, hp, hcid, hcid0, hch, hown]
                      have hjc : joinChar characters st sid data = some character := by
                        simp [joinChar, hp, hcid, hcid0, hch, hown]
                      have hfreec : lookupD st.char_to_sid character.id = none :=
                        hfree character hjc
                      have hpcn : player.character_id = none := hunb player hp
                      have hidc : character.id = cid := hwfc cid character hch
                      have hidne : character.id ≠ "" := by
                        rw [hidc]
                        exact hcid0
                      rw [hw]
                      constructor
                      · intro c s
                        constructor
                        · intro h2
                          by_cases hcc : c = character.id
                          · subst hcc
                            rw [lookupD_insertD_self] at h2
                            have hs : s = sid := (Option.some.inj h2).symm
                            subst hs
                            exact ⟨_, lookupD_insertD_self _ _ _, rfl⟩
                          · rw [lookupD_insertD_ne _ _ _ _ hcc] at h2
                            obtain ⟨q, hq, hqc⟩ := (ihM c s).mp h2
                            have hsne : s ≠ sid := by
                              intro he2
                              subst he2
                              rw [hp] at hq
                              have h4 := Option.some.inj hq
                              rw [← h4, hpcn] at hqc
                              exact Option.noConfusion hqc
                            refine ⟨q, ?_, hqc⟩
                            rw [lookupD_insertD_ne _ _ _ _ hsne]
                            exact hq
                        · rintro ⟨q, hq, hqc⟩
                          by_cases hsne : s = sid
                          · subst hsne
                            rw [lookupD_insertD_self] at hq
                            have hqe := Option.some.inj hq
                            rw [← hqe] at hqc
                            have hcc : character.id = c := Option.some.inj hqc
                            subst hcc
                            exact lookupD_insertD_self _ _ _
                          · rw [lookupD_insertD_ne _ _ _ _ hsne] at hq
                            have h3 : lookupD st.char_to_sid c = some s :=
                              (ihM c s).mpr ⟨q, hq, hqc⟩
                            have hcc : c ≠ character.id := by
                              intro he2
                              subst he2
                              rw [hfreec] at h3
                              exact Option.noConfusion h3
                            rw [lookupD_insertD_ne _ _ _ _ hcc]
                            exact h3
                      · intro s q hq
                        by_cases hsne : s = sid
                        · subst hsne
                          rw [lookupD_insertD_self] at hq
                          have hqe := Option.some.inj hq
                          rw [← hqe]
                          simp [hidne]
                        · rw [lookupD_insertD_ne _ _ _ _ hsne] at hq
                          exact ihN s q hq
  | disc st sid hR ih =>
      obtain ⟨ihM, ihN⟩ := ih
      cases hp : lookupD st.connected_players sid with
      | none =>
          have he : (handle_disconnect st sid).1 = st := by
            simp [handle_disconnect, hp]
          rw [he]
          exact ⟨ihM, ihN⟩
      | some player =>
          cases hpc : player.character_id with
          | none =>
              have hw : (handle_disconnect st sid).1 =
                  { connected_players := eraseD st.connected_players sid,
                    char_to_sid := st.char_to_sid } := by
                simp [handle_disconnect, hp, hpc]
              rw [hw]
              constructor
              · intro c s
                constructor
                · intro h2
                  obtain ⟨q, hq, hqc⟩ := (ihM c s).mp h2
                  have hsne : s ≠ sid := by
                    intro he2
                    subst he2
                    rw [hp] at hq
                    have h4 := Option.some.inj hq
                    rw [← h4, hpc] at hqc
                    exact Option.noConfusion hqc
                  refine ⟨q, ?_, hqc⟩
                  rw [lookupD_eraseD_ne _ _ _ hsne]
                  exact hq
                · rintro ⟨q, hq, hqc⟩
                  by_cases hsne : s = sid
                  · subst hsne
                    rw [lookupD_eraseD_self] at hq
                    exact Option.noConfusion hq
                  · rw [lookupD_eraseD_ne _ _ _ hsne] at hq
                    exact (ihM c s).mpr ⟨q, hq, hqc⟩
              · intro s q hq
                by_cases hsne : s = sid
                · subst hsne
                  rw [lookupD_eraseD_self] at hq
                  exact Option.noConfusion hq
                · rw [lookupD_eraseD_ne _ _ _ hsne] at hq
                  exact ihN s q hq
          | some cid =>
              by_cases hcid0 : cid = ""
              · have hbad : player.character_id = some ("") := by
                  rw [hpc, hcid0]
                exact absurd hbad (ihN sid player hp)
              · have hw : (handle_disconnect st sid).1 =
                    { connected_players := eraseD st.connected_players sid,
                      char_to_sid := eraseD st.char_to_sid cid } := by
                  simp [handle_disconnect, hp, hpc, hcid0]
                have hcts : lookupD st.char_to_sid cid = some sid :=
                  (ihM cid sid).mpr ⟨player, hp, hpc⟩
                rw [hw]
                constructor
                · intro c s
                  constructor
                  · intro h2
                    have hcc : c ≠ cid := by
                      intro he2
                      subst he2
                      rw [lookupD_eraseD_self] at h2
                      exact Option.noConfusion h2
                    rw [lookupD_eraseD_ne _ _ _ hcc] at h2
                    obtain ⟨q, hq, hqc⟩ := (ihM c s).mp h2
                    have hsne : s ≠ sid := by
                      intro he2
                      subst he2
                      rw [hp] at hq
                      have h4 := Option.some.inj hq
                      rw [← h4, hpc] at hqc
                      exact hcc (Option.some.inj hqc).symm
                    refine ⟨q, ?_, hqc⟩
                    rw [lookupD_eraseD_ne _ _ _ hsne]
                    exact hq
                  · rintro ⟨q, hq, hqc⟩
                    by_cases hsne : s = sid
                    · subst hsne
                      rw [lookupD_eraseD_self] at hq
                      exact Option.noConfusion hq
                    · rw [lookupD_eraseD_ne _ _ _ hsne] at hq
                      have h3 : lookupD st.char_to_sid c = some s :=
                        (ihM c s).mpr ⟨q, hq, hqc⟩
                      have hcc : c ≠ cid := by
                        intro he2
                        subst he2
                        rw [hcts] at h3
                        exact hsne (Option.some.inj h3).symm
                      rw [lookupD_eraseD_ne _ _ _ hcc]
                      exact h3
                · intro s q hq
                  by_cases hsne : s = sid
                  · subst hsne
                    rw [lookupD_eraseD_self] at hq
                    exact Option.noConfusion hq
                  · rw [lookupD_eraseD_ne _ _ _ hsne] at hq
                    exact ihN s q hq

/-- Claim C5 (counterexample): the unrestricted trace connect `R`, join
`c5`, join `c6` (a rebind) yields a state where `char_to_sid` maps `c5`
to `R` but session `R` is bound to `c6` — the strict mirror is broken,
refuting the claim for arbitrary event sequences. -/
theorem C5_mirror_cex : ¬ Mirror stRebind := by
  intro h
  obtain ⟨p, hp, hpc⟩ := (h ("c5") ("R")).mp rfl
  have h2 := Option.some.inj hp
  rw [← h2] at hpc
  have h3 := Option.some.inj hpc
  exact absurd h3 (by decide)

/-- Claim C5 (amended): along every trace of connect, join-world and
disconnect events in which connects carry fresh sids, a session with a
bound character never rebinds, no character is double-bound, and
character lookups are well-formed, the reverse index `char_to_sid` is a
strict mirror of the forward map. -/
theorem C5_reverse_index_mirror (st : ServerState) (h : ReachableR st) : Mirror st :=
  (reachable_mirror_aux st h).1

/-- Witness for C5: the two-step trace connect `R` then join `c5` is in
the restricted reachability relation and its state satisfies the mirror. -/
theorem C5_reverse_index_mirror_witness :
    Mirror (handle_join_world charsR
      (handle_connect decR accR st0 ("R") (some { token := some ("tokR") })).1 ("R")
      { character_id := some ("c5"), x := some 1, y := some 2 }).1 :=
  C5_reverse_index_mirror _
    (ReachableR.join _ charsR ("R") _
      (ReachableR.conn st0 decR accR ("R") (some { token := some ("tokR") })
        ReachableR.init rfl)
      (by
        intro p hp
        have h2 := Option.some.inj hp
        rw [← h2])
      (by
        intro ch hch
        have h2 := Option.some.inj hch
        rw [← h2]
        rfl)
      (by
        intro c2 ch h
        by_cases h5 : c2 = "c5"
        · subst h5
          have h2 := Option.some.inj h
          rw [← h2]
        · by_cases h6 : c2 = "c6"
          · subst h6
            have h2 := Option.some.inj h
            rw [← h2]
          · simp [charsR, h5, h6] at h))

end ProjectTactics
